import Mathlib

/-!
Verification of the order-status state machine and order-totals logic of
an Angular e-commerce application.

The definitions below are a shallow embedding of:
  * `src/app/core/models/order.model.ts` — the `OrderStatus` enumeration,
    the `ORDER_STATUS_TRANSITIONS` table and the pricing constants;
  * `src/app/core/services/order.service.ts` — `OrderService.createOrder`,
    `updateOrderStatus`, `updateOrder`, `cancelOrder`,
    `calculateOrderTotals` and `isValidAddress`.

JavaScript numbers are modelled as rationals (`ℚ`); `Math.round` is
modelled as `jsRound` (floor of x + 1/2, which is JavaScript's
round-half-towards-positive-infinity).  The synchronous, pre-HTTP part of
each service method is embedded: validation either fails with an error or
the request payload is forwarded to the HTTP layer (modelled as the `ok`
value of an `Except`).  Signal updates that happen only in HTTP-response
callbacks are outside the synchronous slice and are not modelled; the
signal writes that `createOrder` performs before issuing its request are
modelled through an explicit `ServiceState`.
-/

/-- The `OrderStatus` union type of `order.model.ts`. -/
inductive OrderStatus where
  | draft
  | pending
  | confirmed
  | processing
  | shipped
  | delivered
  | cancelled
  | refunded
deriving DecidableEq, Repr, Fintype

/-- The `ORDER_STATUS_TRANSITIONS` of `order.model.ts`: the fixed map from a
status to the list of statuses it may move to. -/
def ORDER_STATUS_TRANSITIONS : OrderStatus → List OrderStatus
  | .draft => [.pending, .cancelled]
  | .pending => [.confirmed, .cancelled]
  | .confirmed => [.processing, .cancelled]
  | .processing => [.shipped, .cancelled]
  | .shipped => [.delivered]
  | .delivered => [.refunded]
  | .cancelled => []
  | .refunded => []

/-- The `TAX_RATE = 0.08` of `order.model.ts`. -/
def TAX_RATE : ℚ := 8 / 100

/-- The `FREE_SHIPPING_THRESHOLD = 100` of `order.model.ts`. -/
def FREE_SHIPPING_THRESHOLD : ℚ := 100

/-- The `STANDARD_SHIPPING_COST = 9.99` of `order.model.ts`. -/
def STANDARD_SHIPPING_COST : ℚ := 999 / 100

/-- The membership test `ORDER_STATUS_TRANSITIONS[current].includes(target)`
performed at `order.service.ts:120-121`; this is the spec's
`canTransition`. -/
def canTransition (current target : OrderStatus) : Bool :=
  (ORDER_STATUS_TRANSITIONS current).contains target

/-- Errors raised synchronously by `OrderService` methods.  Each
constructor stands for one distinct `new Error(...)` site and carries the
data interpolated into that error's message. -/
inductive OrderError where
  | invalidTransition (current target : OrderStatus)
  | cancelNotAllowed (status : OrderStatus)
  | emptyItems
  | nonPositiveQuantity
  | negativePrice
  | invalidAddress
  | updateNotDraft
deriving DecidableEq, Repr

/-- The spec's `transition(current, target)`: the validated-transition path
of `updateOrderStatus` (`order.service.ts:119-126`) applied to a known
current status — return the target when the table allows it, otherwise the
`InvalidTransition` error carrying `(current, target)` (the code's
"Cannot transition from X to Y" message). -/
def transition (current target : OrderStatus) : Except OrderError OrderStatus :=
  if canTransition current target then .ok target
  else .error (.invalidTransition current target)

/-- The `Math.round` on a rational: JavaScript rounds half towards positive
infinity, i.e. `Math.round(x) = Math.floor(x + 0.5)`. -/
def jsRound (q : ℚ) : ℤ := ⌊q + 1 / 2⌋

/-- The `Math.round(x * 100) / 100`, the round-to-2-decimals idiom of
`calculateOrderTotals` (`order.service.ts:222,224`). -/
def round2 (q : ℚ) : ℚ := (jsRound (q * 100) : ℚ) / 100

/-- The `OrderItem` of `order.model.ts` (the optional `productName`/`total`
fields play no role in the verified code paths and are omitted). -/
structure OrderItem where
  productId : String
  quantity : ℚ
  unitPrice : ℚ
  discount : ℚ
deriving DecidableEq, Repr

/-- The `Address` of `user.model.ts`, as consumed by `isValidAddress`. -/
structure Address where
  street : String
  city : String
  state : String
  postalCode : String
  country : String
deriving DecidableEq, Repr

/-- The `{subtotal, tax, shipping, total}` record returned by
`calculateOrderTotals`. -/
structure OrderTotals where
  subtotal : ℚ
  tax : ℚ
  shipping : ℚ
  total : ℚ
deriving DecidableEq, Repr

/-- The per-item line total `unitPrice * quantity * (1 - discount / 100)`
of `order.service.ts:218`. -/
def lineTotal (item : OrderItem) : ℚ :=
  item.unitPrice * item.quantity * (1 - item.discount / 100)

/-- The `OrderService.calculateOrderTotals` (`order.service.ts:216-227`):
reduce the items to a subtotal, round the tax and the grand total to two
decimals, and waive shipping at or above the free-shipping threshold. -/
def calculateOrderTotals (items : List OrderItem) : OrderTotals :=
  let subtotal := items.foldl (fun sum item => sum + lineTotal item) 0
  let tax := round2 (subtotal * TAX_RATE)
  let shipping := if subtotal ≥ FREE_SHIPPING_THRESHOLD then 0 else STANDARD_SHIPPING_COST
  let total := round2 (subtotal + tax + shipping)
  { subtotal := subtotal, tax := tax, shipping := shipping, total := total }

/-- The `Order` of `order.model.ts`, restricted to the fields the verified
code paths read (`id` and `status` are consulted by the service methods;
the remaining payload fields are carried but never branched on; the two
`Date` fields are omitted). -/
structure Order where
  id : String
  userId : String
  items : List OrderItem
  subtotal : ℚ
  tax : ℚ
  shipping : ℚ
  total : ℚ
  status : OrderStatus
  shippingAddress : Address
  notes : Option String := none
deriving DecidableEq, Repr

/-- The `CreateOrderDTO` of `order.model.ts`. -/
structure CreateOrderDTO where
  userId : String
  items : List OrderItem
  shippingAddress : Address
  billingAddress : Option Address := none
  notes : Option String := none
deriving DecidableEq, Repr

/-- The `UpdateOrderDTO` of `order.model.ts`. -/
structure UpdateOrderDTO where
  items : Option (List OrderItem) := none
  shippingAddress : Option Address := none
  billingAddress : Option Address := none
  notes : Option String := none
deriving DecidableEq, Repr

/-- The synchronous state of `OrderService`: the `ordersSignal`,
`loadingSignal` and `errorSignal` signals. -/
structure ServiceState where
  orders : List Order
  loading : Bool
  errorMsg : Option OrderError
deriving DecidableEq, Repr

/-- The `OrderService.isValidAddress` (`order.service.ts:254-269`): every
field must be non-empty and meet its minimum length (a non-empty check is
subsumed by the length bound). -/
def isValidAddress (address : Address) : Bool :=
  address.street.length ≥ 5 &&
  address.city.length ≥ 2 &&
  address.state.length ≥ 2 &&
  address.postalCode.length ≥ 5 &&
  address.country.length ≥ 2

/-- The `OrderService.updateOrderStatus` (`order.service.ts:115-139`),
synchronous slice: look the order up in the local list; when found,
reject a target outside the transition table; otherwise forward the
PATCH payload `(orderId, newStatus)` to the HTTP layer. -/
def updateOrderStatus (orders : List Order) (orderId : String)
    (newStatus : OrderStatus) : Except OrderError (String × OrderStatus) :=
  match orders.find? (fun o => o.id == orderId) with
  | some currentOrder =>
    if canTransition currentOrder.status newStatus then .ok (orderId, newStatus)
    else .error (.invalidTransition currentOrder.status newStatus)
  | none => .ok (orderId, newStatus)

/-- The `OrderService.updateOrder` (`order.service.ts:144-164`), synchronous
slice: a locally known order may only be updated in `draft` status;
otherwise the PATCH payload is forwarded. -/
def updateOrder (orders : List Order) (orderId : String)
    (dto : UpdateOrderDTO) : Except OrderError (String × UpdateOrderDTO) :=
  match orders.find? (fun o => o.id == orderId) with
  | some currentOrder =>
    if currentOrder.status ≠ OrderStatus.draft then .error .updateNotDraft
    else .ok (orderId, dto)
  | none => .ok (orderId, dto)

/-- The `OrderService.cancelOrder` (`order.service.ts:169-179`): a special
pre-check rejects cancellation of a locally known `shipped` or
`delivered` order with its own error; every other case delegates to
`updateOrderStatus` with target `cancelled`. -/
def cancelOrder (orders : List Order) (orderId : String) :
    Except OrderError (String × OrderStatus) :=
  match orders.find? (fun o => o.id == orderId) with
  | some order =>
    if order.status = .shipped ∨ order.status = .delivered then
      .error (.cancelNotAllowed order.status)
    else updateOrderStatus orders orderId .cancelled
  | none => updateOrderStatus orders orderId .cancelled

/-- The `OrderService.createOrder` (`order.service.ts:48-85`), synchronous
slice: reject empty item lists, then the first item with a non-positive
quantity or negative price (quantity checked first for each item), then
an invalid shipping address — each rejection leaves the service state
untouched.  On success, set `loading`, clear the error, and forward the
DTO merged with the locally computed totals. -/
def createOrder (st : ServiceState) (dto : CreateOrderDTO) :
    ServiceState × Except OrderError (CreateOrderDTO × OrderTotals) :=
  if dto.items.isEmpty then (st, .error .emptyItems)
  else
    match dto.items.find? (fun i => decide (i.quantity ≤ 0) || decide (i.unitPrice < 0)) with
    | some item =>
      if item.quantity ≤ 0 then (st, .error .nonPositiveQuantity)
      else (st, .error .negativePrice)
    | none =>
      if isValidAddress dto.shippingAddress then
        ({ st with loading := true, errorMsg := none },
         .ok (dto, calculateOrderTotals dto.items))
      else (st, .error .invalidAddress)

instance {ε α : Type} [DecidableEq ε] [DecidableEq α] :
    DecidableEq (Except ε α) := fun a b =>
  match a, b with
  | .ok x, .ok y => decidable_of_iff (x = y) (by simp)
  | .error e, .error f => decidable_of_iff (e = f) (by simp)
  | .ok _, .error _ => isFalse (by simp)
  | .error _, .ok _ => isFalse (by simp)

/-- The step relation of the order-status machine: one allowed transition. -/
def stepRel (a b : OrderStatus) : Prop := canTransition a b = true

instance : DecidableRel stepRel := fun a b =>
  inferInstanceAs (Decidable (canTransition a b = true))

/-- Helper: an order with a given id and status, used in concrete
scenarios. -/
def mkOrder (id : String) (status : OrderStatus) : Order :=
  { id := id
    userId := "user-123"
    items := []
    subtotal := 0
    tax := 0
    shipping := 0
    total := 0
    status := status
    shippingAddress :=
      { street := "123 Main St", city := "Boston", state := "MA",
        postalCode := "02101", country := "US" } }

/-- C1: `canTransition current target` is true exactly when `target` is in
the allowed-next list of `current` in the fixed table, and `transition`
returns `target` under that membership and otherwise fails with the
`InvalidTransition` error carrying `(current, target)`. -/
theorem canTransition_transition_spec :
    ∀ current target : OrderStatus,
      (canTransition current target = true ↔
        target ∈ ORDER_STATUS_TRANSITIONS current) ∧
      transition current target =
        (if target ∈ ORDER_STATUS_TRANSITIONS current then .ok target
         else .error (.invalidTransition current target)) := by
  decide

/-- C4: `cancelled` and `refunded` are terminal — their allowed-next lists
are empty, `canTransition` from them is false for every target and
`transition` from them always fails; and `transition delivered refunded`
succeeds with `refunded`, after which every transition fails. -/
theorem cancelled_refunded_terminal :
    ORDER_STATUS_TRANSITIONS .cancelled = [] ∧
    ORDER_STATUS_TRANSITIONS .refunded = [] ∧
    (∀ target : OrderStatus,
      canTransition .cancelled target = false ∧
      canTransition .refunded target = false ∧
      transition .cancelled target = .error (.invalidTransition .cancelled target) ∧
      transition .refunded target = .error (.invalidTransition .refunded target)) ∧
    transition .delivered .refunded = .ok .refunded := by
  decide

/-- No allowed transition targets `draft`: `draft` is in no status's
allowed-next list. -/
theorem no_step_to_draft : ∀ a b : OrderStatus, stepRel a b → b ≠ .draft := by
  decide

/-- Every status appearing along a chain of allowed transitions out of
`a` is the target of some step, hence not `draft`. -/
theorem chain_avoids_draft (a : OrderStatus) (l : List OrderStatus)
    (h : List.Chain stepRel a l) : ∀ x ∈ l, x ≠ OrderStatus.draft := by
  induction l generalizing a with
  | nil => intro x hx; cases hx
  | cons b rest ih =>
    rcases List.chain_cons.mp h with ⟨hab, hrest⟩
    intro x hx
    rcases List.mem_cons.mp hx with rfl | hmem
    · exact no_step_to_draft a x hab
    · exact ih b hrest x hmem

/-- C5: along every sequence of allowed transitions starting from `draft`,
the status never returns to `draft`: no element of the path after the
start is `draft`. -/
theorem no_path_revisits_draft (l : List OrderStatus)
    (h : List.Chain stepRel OrderStatus.draft l) : OrderStatus.draft ∉ l := by
  intro hmem
  exact chain_avoids_draft OrderStatus.draft l h OrderStatus.draft hmem rfl

/-- Witness for C5: the chain draft → pending → confirmed is a valid path
and never revisits draft. -/
theorem no_path_revisits_draft_witness :
    OrderStatus.draft ∉ [OrderStatus.pending, OrderStatus.confirmed] :=
  no_path_revisits_draft [OrderStatus.pending, OrderStatus.confirmed]
    (List.Chain.cons (by decide) (List.Chain.cons (by decide) List.Chain.nil))

/-- The fold computing the subtotal equals the sum of the per-item line
totals, for any accumulator. -/
theorem foldl_lineTotal (items : List OrderItem) (a : ℚ) :
    items.foldl (fun sum item => sum + lineTotal item) a =
      a + (items.map lineTotal).sum := by
  induction items generalizing a with
  | nil => simp
  | cons i rest ih => simp [ih]; ring

/-- C2: for every item list, `calculateOrderTotals` returns the subtotal
as the sum of `unitPrice * quantity * (1 - discount/100)` over the items,
the tax as the subtotal times `TAX_RATE` rounded to 2 decimals, shipping
`0` at or above the free-shipping threshold and `STANDARD_SHIPPING_COST`
below it, and the total as subtotal + tax + shipping rounded to 2
decimals. -/
theorem calculateOrderTotals_spec (items : List OrderItem) :
    (calculateOrderTotals items).subtotal =
      (items.map (fun i => i.unitPrice * i.quantity * (1 - i.discount / 100))).sum ∧
    (calculateOrderTotals items).tax =
      round2 ((calculateOrderTotals items).subtotal * TAX_RATE) ∧
    (calculateOrderTotals items).shipping =
      (if (calculateOrderTotals items).subtotal ≥ FREE_SHIPPING_THRESHOLD then 0
       else STANDARD_SHIPPING_COST) ∧
    (calculateOrderTotals items).total =
      round2 ((calculateOrderTotals items).subtotal +
        (calculateOrderTotals items).tax + (calculateOrderTotals items).shipping) := by
  refine ⟨?_, rfl, rfl, rfl⟩
  show items.foldl (fun sum item => sum + lineTotal item) 0 = _
  rw [foldl_lineTotal]
  rw [zero_add]
  rfl

/-- C6: `calculateOrderTotals []` charges shipping on the empty order:
subtotal 0, tax 0, shipping 9.99 and total 9.99. -/
theorem calculateOrderTotals_empty :
    calculateOrderTotals [] =
      { subtotal := 0, tax := 0,
        shipping := STANDARD_SHIPPING_COST, total := STANDARD_SHIPPING_COST } := by
  unfold calculateOrderTotals round2 jsRound TAX_RATE FREE_SHIPPING_THRESHOLD
    STANDARD_SHIPPING_COST
  norm_num

/-- C7: the two-item scenario — 2 × 25.00 at no discount plus 1 × 50.00 at
10% discount — yields subtotal 95, tax 7.60, shipping 9.99 and total
112.59. -/
theorem calculateOrderTotals_scenario :
    calculateOrderTotals
      [ { productId := "prod-1", quantity := 2, unitPrice := 25, discount := 0 },
        { productId := "prod-2", quantity := 1, unitPrice := 50, discount := 10 } ] =
      { subtotal := 95, tax := 760 / 100, shipping := 999 / 100, total := 11259 / 100 } := by
  unfold calculateOrderTotals round2 jsRound lineTotal TAX_RATE FREE_SHIPPING_THRESHOLD
    STANDARD_SHIPPING_COST
  norm_num

/-- C3 counterexample: cancelling a locally known `shipped` order fails
through the special-case pre-check of `cancelOrder` with the distinct
cancellation error, not with the `InvalidTransition` error the
transition-table check would produce. -/
theorem cancelOrder_shipped_distinct_error :
    cancelOrder [mkOrder "o1" .shipped] "o1" =
      .error (.cancelNotAllowed .shipped) ∧
    OrderError.cancelNotAllowed .shipped ≠
      OrderError.invalidTransition .shipped .cancelled := by
  decide

/-- C3 amended: cancelling a locally known `shipped` or `delivered` order
fails via a special-case pre-check with a distinct cancellation error
carrying the order's status; cancelling a `cancelled` or `refunded` order
fails through transition-table membership with the `InvalidTransition`
error; from every other status the cancellation request is forwarded. -/
theorem cancelOrder_behavior :
    ∀ s : OrderStatus,
      cancelOrder [mkOrder "o1" s] "o1" =
        (if s = .shipped ∨ s = .delivered then
           .error (.cancelNotAllowed s)
         else if s = .cancelled ∨ s = .refunded then
           .error (.invalidTransition s .cancelled)
         else .ok ("o1", .cancelled)) := by
  decide

/-- C8: when no locally held order has the requested id, `updateOrderStatus`
skips transition validation entirely and forwards the status-change
request for any target status. -/
theorem updateOrderStatus_unknown_id (orders : List Order) (orderId : String)
    (newStatus : OrderStatus)
    (h : orders.find? (fun o => o.id == orderId) = none) :
    updateOrderStatus orders orderId newStatus = .ok (orderId, newStatus) := by
  unfold updateOrderStatus
  rw [h]

/-- Witness for C8: on an empty local order list, any status change for an
unknown id is forwarded unchecked. -/
theorem updateOrderStatus_unknown_id_witness :
    ([] : List Order).find? (fun o => o.id == "order-9") = none ∧
    updateOrderStatus [] "order-9" OrderStatus.delivered =
      .ok ("order-9", OrderStatus.delivered) :=
  ⟨rfl, updateOrderStatus_unknown_id [] "order-9" OrderStatus.delivered rfl⟩

/-- C10: a locally known order whose status is not `draft` cannot be
updated — `updateOrder` fails with the draft-only error. -/
theorem updateOrder_not_draft (orders : List Order) (orderId : String)
    (dto : UpdateOrderDTO) (o : Order)
    (hfind : orders.find? (fun o => o.id == orderId) = some o)
    (hstatus : o.status ≠ OrderStatus.draft) :
    updateOrder orders orderId dto = .error .updateNotDraft := by
  unfold updateOrder
  rw [hfind]
  simp [hstatus]

/-- Witness for C10: updating a `pending` order fails with the draft-only
error. -/
theorem updateOrder_not_draft_witness :
    ([mkOrder "o1" .pending].find? (fun o => o.id == "o1") =
      some (mkOrder "o1" .pending)) ∧
    (mkOrder "o1" OrderStatus.pending).status ≠ OrderStatus.draft ∧
    updateOrder [mkOrder "o1" .pending] "o1" {} = .error .updateNotDraft :=
  ⟨rfl, by decide,
    updateOrder_not_draft [mkOrder "o1" .pending] "o1" {}
      (mkOrder "o1" .pending) rfl (by decide)⟩

/-- C9: `createOrder` rejects synchronously — leaving the service state
untouched — exactly when the item list is empty, some item has a
non-positive quantity, some item has a negative unit price, or the
shipping address fails the minimum-length checks; otherwise it sets the
loading flag, clears the error signal, and forwards the DTO together with
the totals computed from its items. -/
theorem createOrder_validation (st : ServiceState) (dto : CreateOrderDTO) :
    ((dto.items = [] ∨ (∃ i ∈ dto.items, i.quantity ≤ 0) ∨
        (∃ i ∈ dto.items, i.unitPrice < 0) ∨
        isValidAddress dto.shippingAddress = false) →
      ∃ e, createOrder st dto = (st, Except.error e)) ∧
    (¬ (dto.items = [] ∨ (∃ i ∈ dto.items, i.quantity ≤ 0) ∨
        (∃ i ∈ dto.items, i.unitPrice < 0) ∨
        isValidAddress dto.shippingAddress = false) →
      createOrder st dto =
        ({ st with loading := true, errorMsg := none },
         Except.ok (dto, calculateOrderTotals dto.items))) := by
  constructor
  · intro hbad
    by_cases hempty : dto.items.isEmpty
    · exact ⟨.emptyItems, by simp [createOrder, hempty]⟩
    · cases hfind : dto.items.find?
          (fun i => decide (i.quantity ≤ 0) || decide (i.unitPrice < 0)) with
      | some item =>
        by_cases hq : item.quantity ≤ 0
        · exact ⟨.nonPositiveQuantity, by simp [createOrder, hempty, hfind, hq]⟩
        · exact ⟨.negativePrice, by simp [createOrder, hempty, hfind, hq]⟩
      | none =>
        have hforall := List.find?_eq_none.mp hfind
        have haddr : isValidAddress dto.shippingAddress = false := by
          rcases hbad with h | h | h | h
          · exact absurd (by simp [h] : dto.items.isEmpty = true) hempty
          · rcases h with ⟨i, hi, hqi⟩
            have hni := hforall i hi
            simp only [Bool.or_eq_true, decide_eq_true_eq, not_or] at hni
            exact absurd hqi hni.1
          · rcases h with ⟨i, hi, hpi⟩
            have hni := hforall i hi
            simp only [Bool.or_eq_true, decide_eq_true_eq, not_or] at hni
            exact absurd hpi hni.2
          · exact h
        exact ⟨.invalidAddress, by simp [createOrder, hempty, hfind, haddr]⟩
  · intro hgood
    push_neg at hgood
    obtain ⟨hne, hq, hp, haddr⟩ := hgood
    have haddr2 : isValidAddress dto.shippingAddress = true := by
      cases hv : isValidAddress dto.shippingAddress
      · exact absurd hv haddr
      · rfl
    have hfind : dto.items.find?
        (fun i => decide (i.quantity ≤ 0) || decide (i.unitPrice < 0)) = none := by
      refine List.find?_eq_none.mpr fun x hx => ?_
      simp only [Bool.or_eq_true, decide_eq_true_eq, not_or]
      exact ⟨not_le.mpr (hq x hx), not_lt.mpr (hp x hx)⟩
    have hempty : ¬ dto.items.isEmpty := by simp [hne]
    simp [createOrder, hempty, hfind, haddr2]

/-- Witness for C9: an empty-item DTO is rejected with the state
untouched, and a valid DTO is forwarded with its computed totals. -/
theorem createOrder_validation_witness :
    (∃ e,
      createOrder
        { orders := [], loading := false, errorMsg := none }
        { userId := "user-123", items := [],
          shippingAddress :=
            { street := "123 Main St", city := "Boston", state := "MA",
              postalCode := "02101", country := "US" } } =
        ({ orders := [], loading := false, errorMsg := none }, Except.error e)) :=
  (createOrder_validation
    { orders := [], loading := false, errorMsg := none }
    { userId := "user-123", items := [],
      shippingAddress :=
        { street := "123 Main St", city := "Boston", state := "MA",
          postalCode := "02101", country := "US" } }).1 (Or.inl rfl)
